import Mathlib

/-!
Shallow embedding of `src/main.py`, the weather "bolt" Telegram bot.

The weather provider (`requests.get` against the weather API) is
modelled as a function from the query string to an outcome: either an
HTTP response (any status code, with an optionally-parseable JSON body)
or a transport-level failure (`requests.exceptions.RequestException`:
connection error / timeout).  Python floats are modelled as rationals;
handlers that perform outbound calls are instrumented with the list of
queries they issue, so that retry and frame claims are statable.
-/

/-- The normalized weather reading: the `weather_info` dict built by
`get_weather` on success. -/
structure WeatherInfo where
  city : String
  temp : ℚ
  description : String
  rain : ℚ
  snow : ℚ
  clouds : ℤ
  visibility : ℤ
  wind_speed : ℚ
deriving DecidableEq, Repr

/-- Parsed JSON body of a provider response, flattened to exactly the
fields the source reads: `name`, `main.temp`, `weather[0].description`,
`rain.1h`, `snow.1h`, `clouds.all`, `visibility`, `wind.speed`.
For `name`, `main_temp`, `weather_description`, `clouds_all` and
`wind_speed`, `none` means the (nested) Python lookup raises
`KeyError`/`IndexError`; for `rain_1h`, `snow_1h` and `visibility` the
source reads them with `.get` and a default instead. -/
structure ProviderData where
  name : Option String
  main_temp : Option ℚ
  weather_description : Option String
  rain_1h : Option ℚ
  snow_1h : Option ℚ
  clouds_all : Option ℤ
  visibility : Option ℤ
  wind_speed : Option ℚ
deriving DecidableEq, Repr

/-- An HTTP response from the provider.  Here `body = none` models a
body on which `response.json()` raises (malformed JSON). -/
structure HttpResponse where
  status_code : ℕ
  body : Option ProviderData
deriving DecidableEq, Repr

/-- Outcome of one `fetch_data` call: a response, or
`requests.exceptions.RequestException` (connection error / timeout). -/
inductive FetchOutcome
  | ok (r : HttpResponse)
  | requestError
deriving DecidableEq, Repr

/-- Python `'-' in city`. -/
def containsHyphen (s : String) : Bool :=
  s.data.any (fun c => c = '-')

/-- Python `city.replace('-', ' ')` (every hyphen becomes a space). -/
def replaceHyphen (s : String) : String :=
  String.mk (s.data.map (fun c => if c = '-' then ' ' else c))

def msg_not_found : String := "Город не найден. Попробуйте написать название на английском."

def msg_provider_error : String := "Ошибка при получении данных о погоде."

def msg_network_error : String := "Не удалось связаться с сервисом погоды."

def msg_unexpected_error : String := "Произошла неожиданная ошибка."

/-- The four user-facing error strings `get_weather` can return. -/
def weather_error_messages : List String :=
  [msg_not_found, msg_provider_error, msg_network_error, msg_unexpected_error]

/-- Models `response.raise_for_status()`, `data = response.json()`, the
`weather_info` extraction, and the `except` clauses of `get_weather`
that concern a received response.  `raise_for_status` raises `HTTPError`
exactly for status codes 400–599; the `except HTTPError` clause maps a
404 to `msg_not_found` and any other such status to
`msg_provider_error`.  A body that does not parse, or that misses one of
the required fields (`name`, `main.temp`, `weather[0].description`,
`clouds.all`, `wind.speed`), raises and lands in `except Exception`,
which returns `msg_unexpected_error`. -/
def handle_response (r : HttpResponse) : Option WeatherInfo × Option String :=
  if 400 ≤ r.status_code ∧ r.status_code < 600 then
    if r.status_code = 404 then (none, some msg_not_found)
    else (none, some msg_provider_error)
  else
    match r.body with
    | none => (none, some msg_unexpected_error)
    | some d =>
      match d.name, d.main_temp, d.weather_description, d.clouds_all, d.wind_speed with
      | some nm, some t, some ds, some cl, some ws =>
          (some { city := nm, temp := t, description := ds,
                  rain := d.rain_1h.getD 0, snow := d.snow_1h.getD 0,
                  clouds := cl, visibility := d.visibility.getD 10000,
                  wind_speed := ws }, none)
      | _, _, _, _, _ => (none, some msg_unexpected_error)

/-- The function `get_weather`, instrumented with the list of queries
issued to the provider (the successive arguments of `fetch_data`).  The
first call uses the city as given; if it returns a response with status
404 and the city contains a hyphen, exactly one retry is issued with
hyphens replaced by spaces.  A `FetchOutcome.requestError` from either
call is caught by `except RequestException` and mapped to
`msg_network_error`. -/
def get_weather_run (provider : String → FetchOutcome) (city : String) :
    (Option WeatherInfo × Option String) × List String :=
  match provider city with
  | .requestError => ((none, some msg_network_error), [city])
  | .ok response =>
    if response.status_code = 404 ∧ containsHyphen city = true then
      let city_variant := replaceHyphen city
      match provider city_variant with
      | .requestError => ((none, some msg_network_error), [city, city_variant])
      | .ok response2 => (handle_response response2, [city, city_variant])
    else
      (handle_response response, [city])

/-- The value `get_weather` returns: `(weather_info, None)` on success,
`(None, error_message)` on failure. -/
def get_weather (provider : String → FetchOutcome) (city : String) :
    Option WeatherInfo × Option String :=
  (get_weather_run provider city).1

/-- The queries `get_weather` issues to the provider, in order. -/
def get_weather_queries (provider : String → FetchOutcome) (city : String) :
    List String :=
  (get_weather_run provider city).2

def line_wet : String := "БОЛТ МОКРЫЙ - ИДЕТ ДОЖДЬ"

def line_dry : String := "БОЛТ СУХОЙ - ДОЖДЯ НЕТ"

def line_clear : String := "БОЛТ ОТБРАСЫВАЕТ ТЕНЬ - ЯСНО"

def line_cloudy : String := "БОЛТ НЕ ОТБРАСЫВАЕТ ТЕНЬ - ОБЛАЧНО"

def line_fog : String := "БОЛТА НЕ ВИДНО - ТУМАН"

def line_no_fog : String := "БОЛТ ВИДНО - ТУМАНА НЕТ"

def line_windy : String := "БОЛТ КАЧАЕТСЯ - ВЕТРЕННО"

def line_calm : String := "БОЛТ НЕ КАЧАЕТСЯ - НЕ ВЕТРЕННО"

def line_snow : String := "БОЛТ В БЕЛОМ - СНЕГ"

/-- The `messages` list built by `generate_bolt_message`: one line per
unconditional rain/clouds/visibility/wind rule, then the snow line,
appended only when `snow > 0`. -/
def bolt_messages (w : WeatherInfo) : List String :=
  [if w.rain > 0 then line_wet else line_dry,
   if w.clouds < 30 then line_clear else line_cloudy,
   if w.visibility < 1000 then line_fog else line_no_fog,
   if w.wind_speed > 5 then line_windy else line_calm] ++
  (if w.snow > 0 then [line_snow] else [])

/-- Python `"\n".join`. -/
def joinNL : List String → String
  | [] => ""
  | [m] => m
  | m :: m2 :: rest => m ++ "\n" ++ joinNL (m2 :: rest)

/-- The function `generate_bolt_message`: the status lines joined by
newline. -/
def generate_bolt_message (w : WeatherInfo) : String :=
  joinNL (bolt_messages w)

/-- A rational scaled by ten and rounded to the nearest integer, ties to
even (the rounding Python's `format` applies to floats), computed on the
numerator and denominator: with `N = 10 * num` and `D = den > 0`, the
floor `f` of `N / D` leaves a remainder `r = N - f * D` in `[0, D)`;
comparing `2 r` against `D` decides the direction, a tie goes to the
even side. -/
def scaledRoundHalfEven (q : ℚ) : ℤ :=
  let N := q.num * 10
  let D : ℤ := (q.den : ℤ)
  let f := Int.fdiv N D
  let r := N - f * D
  if 2 * r < D then f
  else if 2 * r > D then f + 1
  else if f % 2 = 0 then f else f + 1

/-- The Python format specifier `:.1f`, on the rational reading of the
float: the value rounded to tenths, printed with exactly one digit after
the decimal point, a leading minus sign when the value is negative. -/
def fmt1 (q : ℚ) : String :=
  let n : ℤ := scaledRoundHalfEven q
  let sign := if q.num < 0 then "-" else ""
  sign ++ toString (n.natAbs / 10) ++ "." ++ toString (n.natAbs % 10)

/-- The function `generate_detailed_message`: the f-string of the
source, with the `{weather_data['temp']:.1f}` interpolation modelled by
`fmt1`. -/
def generate_detailed_message (w : WeatherInfo) : String :=
  "🌡 Погода в городе " ++ w.city ++ "\n" ++
  "Температура: " ++ fmt1 w.temp ++ "°C\n" ++
  "Описание: " ++ w.description ++ "\n\n" ++
  "⚙️ Состояние метеоболта:\n" ++ generate_bolt_message w

/-- One `InlineQueryResultArticle`, flattened to the fields the source
sets (`input_message_content=InputTextMessageContent(message_text=...)`
becomes `message_text`; the error article sets no `description`). -/
structure InlineResult where
  id : String
  title : String
  description : Option String
  message_text : String
deriving DecidableEq, Repr

/-- The outward effect of the `inline_query` handler: either no answer
at all (the early `return`, or a handler exception swallowed by the
framework) or one `answer` call with its result list and `cache_time`. -/
inductive InlineOutcome
  | noAnswer
  | answered (results : List InlineResult) (cache_time : ℕ)
deriving DecidableEq, Repr

/-- Python `str.strip()`: whitespace removed from both ends. -/
def pyStrip (s : String) : String :=
  String.mk (((s.data.dropWhile Char.isWhitespace).reverse.dropWhile
    Char.isWhitespace).reverse)

/-- The `inline_query` handler, on the raw query text, paired with the
list of queries issued to the weather provider (empty when `get_weather`
is never called).  The `(none, none)` case of `get_weather` cannot occur
(see `get_weather_shape`); reaching it in Python would raise inside the
handler, which the framework swallows, so it maps to `noAnswer`. -/
def inline_query (provider : String → FetchOutcome) (raw : String) :
    InlineOutcome × List String :=
  let query := pyStrip raw
  if query = "" then (.noAnswer, [])
  else
    let run := get_weather_run provider query
    match run.1 with
    | (_, some error) =>
        (.answered [{ id := "error", title := "❌ " ++ error,
                      description := none,
                      message_text := "❌ " ++ error }] 300, run.2)
    | (some w, none) =>
        (.answered [{ id := w.city, title := "🔩 " ++ w.city,
                      description := some (fmt1 w.temp ++ "°C, " ++ w.description),
                      message_text := "🔩 Метеоболт: " ++ w.city ++ "\n\n" ++
                        generate_bolt_message w }] 300, run.2)
    | (none, none) => (.noAnswer, run.2)

/-- One delivery to `POST /webhook`, described by the fate of its
stages: whether `request.json()` together with `Update.de_json`
succeeds, whether the handoff `process_update` reaches a handler without
raising, and whether the handler that then runs raises. -/
structure WebhookScenario where
  decode_ok : Bool
  handoff_ok : Bool
  handler_raises : Bool
deriving DecidableEq, Repr

/-- Modelled from the spec: whether `Application.process_update` (the
bot framework's dispatch, not part of this repository's files) raises.
The spec's rule "Any handler exception → logged …; never propagated"
means a handler exception is swallowed inside the framework (routed to
`error_handler`), so `process_update` raises exactly when the handoff
itself fails before any handler runs. -/
def process_update_raises (s : WebhookScenario) : Bool :=
  !s.handoff_ok

/-- The handler `telegram_webhook_handler`: the HTTP status returned to
the caller.  The `try` block returns `web.Response()` (status 200) once
decode and handoff complete; the `except` clause returns status 500. -/
def telegram_webhook_handler (s : WebhookScenario) : ℕ :=
  if s.decode_ok = true then
    if process_update_raises s = true then 500 else 200
  else 500

/-- The spec's boundary scenario reading: Moscow, temp 3.2, light rain
0.5 mm, no snow, clouds 80, visibility 5000, wind 2. -/
def wMoscow : WeatherInfo :=
  { city := "Moscow", temp := mkRat 16 5, description := "light rain",
    rain := mkRat 1 2, snow := 0, clouds := 80, visibility := 5000, wind_speed := 2 }

/-- A concrete parsed body: all required fields present, the optional
rain/snow/visibility fields absent. -/
def dOslo : ProviderData :=
  { name := some "Oslo", main_temp := some 7, weather_description := some "clear",
    rain_1h := none, snow_1h := none, clouds_all := some 10, visibility := none,
    wind_speed := some 3 }

/-- A 200 response carrying `dOslo`. -/
def respOslo : HttpResponse :=
  { status_code := 200, body := some dOslo }

/-- A provider that answers only the query `Oslo`, with `respOslo`. -/
def providerOslo : String → FetchOutcome :=
  fun q => if q = "Oslo" then .ok respOslo else .requestError

/-- A bodyless 500 response. -/
def resp500 : HttpResponse :=
  { status_code := 500, body := none }

/-- A provider that returns HTTP 500 to every query. -/
def provider500 : String → FetchOutcome :=
  fun _ => .ok resp500

/-- Either outcome of `handle_response`: a reading and no error, or no
reading and one of the four fixed error strings. -/
theorem handle_response_shape (r : HttpResponse) :
    (∃ w, handle_response r = (some w, none)) ∨
    (∃ m, handle_response r = (none, some m) ∧ m ∈ weather_error_messages) := by
  unfold handle_response
  split
  · split
    · exact Or.inr ⟨msg_not_found, rfl, by simp [weather_error_messages]⟩
    · exact Or.inr ⟨msg_provider_error, rfl, by simp [weather_error_messages]⟩
  · split
    · exact Or.inr ⟨msg_unexpected_error, rfl, by simp [weather_error_messages]⟩
    · split
      · exact Or.inl ⟨_, rfl⟩
      · exact Or.inr ⟨msg_unexpected_error, rfl, by simp [weather_error_messages]⟩

/-- Either outcome of `get_weather`: a reading and no error, or no
reading and one of the four fixed error strings. -/
theorem get_weather_shape (provider : String → FetchOutcome) (city : String) :
    (∃ w, get_weather provider city = (some w, none)) ∨
    (∃ m, get_weather provider city = (none, some m) ∧ m ∈ weather_error_messages) := by
  unfold get_weather get_weather_run
  cases provider city with
  | requestError =>
      exact Or.inr ⟨msg_network_error, rfl, by simp [weather_error_messages]⟩
  | ok response =>
      dsimp only
      split
      · cases provider (replaceHyphen city) with
        | requestError =>
            exact Or.inr ⟨msg_network_error, rfl, by simp [weather_error_messages]⟩
        | ok response2 => exact handle_response_shape response2
      · exact handle_response_shape response

/-- Evaluation of `get_weather_run` when the first request fails at the
transport level. -/
theorem get_weather_run_requestError (provider : String → FetchOutcome) (city : String)
    (h : provider city = .requestError) :
    get_weather_run provider city = ((none, some msg_network_error), [city]) := by
  simp [get_weather_run, h]

/-- Evaluation of `get_weather_run` when the first response does not
trigger the hyphen retry. -/
theorem get_weather_run_no_retry (provider : String → FetchOutcome) (city : String)
    (r : HttpResponse) (h : provider city = .ok r)
    (hc : ¬(r.status_code = 404 ∧ containsHyphen city = true)) :
    get_weather_run provider city = (handle_response r, [city]) := by
  simp [get_weather_run, h, hc]

/-- Evaluation of `get_weather_run` when the retry request fails at the
transport level. -/
theorem get_weather_run_retry_requestError (provider : String → FetchOutcome) (city : String)
    (r : HttpResponse) (h : provider city = .ok r)
    (hc : r.status_code = 404 ∧ containsHyphen city = true)
    (h2 : provider (replaceHyphen city) = .requestError) :
    get_weather_run provider city =
      ((none, some msg_network_error), [city, replaceHyphen city]) := by
  simp [get_weather_run, h, hc, h2]

/-- Evaluation of `get_weather_run` when the retry request returns a
response. -/
theorem get_weather_run_retry_ok (provider : String → FetchOutcome) (city : String)
    (r r2 : HttpResponse) (h : provider city = .ok r)
    (hc : r.status_code = 404 ∧ containsHyphen city = true)
    (h2 : provider (replaceHyphen city) = .ok r2) :
    get_weather_run provider city =
      (handle_response r2, [city, replaceHyphen city]) := by
  simp [get_weather_run, h, hc, h2]

/-- A 404 response maps to the not-found message. -/
theorem handle_response_404 (r : HttpResponse) (h : r.status_code = 404) :
    handle_response r = (none, some msg_not_found) := by
  simp [handle_response, h]

/-- A non-404 failure status (400–599) maps to the provider-error
message. -/
theorem handle_response_failure_status (r : HttpResponse)
    (h4 : 400 ≤ r.status_code) (h6 : r.status_code < 600) (hne : r.status_code ≠ 404) :
    handle_response r = (none, some msg_provider_error) := by
  simp [handle_response, h4, h6, hne]

/-- A non-failure status with an unparseable body maps to the
unexpected-error message. -/
theorem handle_response_no_body (r : HttpResponse)
    (h : ¬(400 ≤ r.status_code ∧ r.status_code < 600)) (hb : r.body = none) :
    handle_response r = (none, some msg_unexpected_error) := by
  simp [handle_response, h, hb]

/-- A non-failure status whose body misses a required field maps to the
unexpected-error message. -/
theorem handle_response_missing_field (r : HttpResponse) (d : ProviderData)
    (h : ¬(400 ≤ r.status_code ∧ r.status_code < 600)) (hb : r.body = some d)
    (hm : d.name = none ∨ d.main_temp = none ∨ d.weather_description = none ∨
      d.clouds_all = none ∨ d.wind_speed = none) :
    handle_response r = (none, some msg_unexpected_error) := by
  obtain ⟨nm, mt, wd, rn, sn, ca, vi, ws⟩ := d
  simp only [handle_response, hb, if_neg h]
  rcases nm with _ | nm <;> rcases mt with _ | mt <;> rcases wd with _ | wd <;>
    rcases ca with _ | ca <;> rcases ws with _ | ws <;> simp_all

/-- A non-failure status with all required fields present builds the
reading, with the `.get` defaults for rain, snow and visibility. -/
theorem handle_response_success (r : HttpResponse) (d : ProviderData)
    (nm : String) (t : ℚ) (ds : String) (cl : ℤ) (ws : ℚ)
    (h : ¬(400 ≤ r.status_code ∧ r.status_code < 600)) (hb : r.body = some d)
    (hnm : d.name = some nm) (hmt : d.main_temp = some t)
    (hwd : d.weather_description = some ds) (hca : d.clouds_all = some cl)
    (hws : d.wind_speed = some ws) :
    handle_response r =
      (some { city := nm, temp := t, description := ds,
              rain := d.rain_1h.getD 0, snow := d.snow_1h.getD 0,
              clouds := cl, visibility := d.visibility.getD 10000,
              wind_speed := ws }, none) := by
  simp [handle_response, if_neg h, hb, hnm, hmt, hwd, hca, hws]

/-- Exactly one digit is printed for a natural number below ten. -/
theorem toString_digit (m : ℕ) (h : m < 10) :
    (toString m).length = 1 ∧ (toString m).data.all Char.isDigit = true := by
  interval_cases m <;> exact ⟨by decide, by decide⟩

/-- The spec's sample scenario: Moscow with light rain, heavy clouds,
good visibility, calm wind and no snow yields exactly the four expected
lines. -/
theorem moscow_scenario :
    bolt_messages wMoscow = [line_wet, line_cloudy, line_no_fog, line_calm] := by
  decide

/-- C1: for every WeatherReading the bolt status lines follow the rule
table with each rule evaluated independently — rain > 0 gives the wet
line and rain = 0 the dry line at position 0; clouds < 30 the clear line
and clouds ≥ 30 (inclusive boundary) the cloudy line at position 1;
visibility < 1000 the fog line and visibility ≥ 1000 the no-fog line at
position 2; wind_speed > 5 the windy line and wind_speed ≤ 5 the calm
line at position 3 — in the fixed order rain, clouds, visibility, wind,
then conditional snow at position 4. -/
theorem bolt_rule_table (w : WeatherInfo) :
    ((w.rain > 0 → (bolt_messages w)[0]? = some line_wet) ∧
     (w.rain = 0 → (bolt_messages w)[0]? = some line_dry)) ∧
    ((w.clouds < 30 → (bolt_messages w)[1]? = some line_clear) ∧
     (30 ≤ w.clouds → (bolt_messages w)[1]? = some line_cloudy)) ∧
    ((w.visibility < 1000 → (bolt_messages w)[2]? = some line_fog) ∧
     (1000 ≤ w.visibility → (bolt_messages w)[2]? = some line_no_fog)) ∧
    ((w.wind_speed > 5 → (bolt_messages w)[3]? = some line_windy) ∧
     (w.wind_speed ≤ 5 → (bolt_messages w)[3]? = some line_calm)) ∧
    ((w.snow > 0 → (bolt_messages w)[4]? = some line_snow) ∧
     (w.snow ≤ 0 → (bolt_messages w)[4]? = none)) := by
  have hwet : w.rain > 0 → (bolt_messages w)[0]? = some line_wet := by
    intro h; simp [bolt_messages, h]
  have hdry : w.rain = 0 → (bolt_messages w)[0]? = some line_dry := by
    intro h; simp [bolt_messages, h]
  have hclear : w.clouds < 30 → (bolt_messages w)[1]? = some line_clear := by
    intro h; simp [bolt_messages, h]
  have hcloudy : 30 ≤ w.clouds → (bolt_messages w)[1]? = some line_cloudy := by
    intro h; simp [bolt_messages, not_lt.mpr h]
  have hfog : w.visibility < 1000 → (bolt_messages w)[2]? = some line_fog := by
    intro h; simp [bolt_messages, h]
  have hnofog : 1000 ≤ w.visibility → (bolt_messages w)[2]? = some line_no_fog := by
    intro h; simp [bolt_messages, not_lt.mpr h]
  have hwindy : w.wind_speed > 5 → (bolt_messages w)[3]? = some line_windy := by
    intro h; simp [bolt_messages, h]
  have hcalm : w.wind_speed ≤ 5 → (bolt_messages w)[3]? = some line_calm := by
    intro h; simp [bolt_messages, not_lt.mpr h]
  have hsnow : w.snow > 0 → (bolt_messages w)[4]? = some line_snow := by
    intro h; simp [bolt_messages, h]
  have hnosnow : w.snow ≤ 0 → (bolt_messages w)[4]? = none := by
    intro h; simp [bolt_messages, not_lt.mpr h]
  exact ⟨⟨hwet, hdry⟩, ⟨hclear, hcloudy⟩, ⟨hfog, hnofog⟩, ⟨hwindy, hcalm⟩, ⟨hsnow, hnosnow⟩⟩

/-- C2: snow = 0 gives exactly 4 status lines; snow > 0 gives exactly 5
with the snow line last; the snow line appears exactly when snow > 0,
so no "no snow" line is ever emitted. -/
theorem bolt_line_count (w : WeatherInfo) :
    (w.snow = 0 → (bolt_messages w).length = 4) ∧
    (w.snow > 0 → (bolt_messages w).length = 5 ∧
      (bolt_messages w).getLast? = some line_snow) ∧
    (line_snow ∈ bolt_messages w ↔ w.snow > 0) := by
  refine ⟨fun h => ?_, fun h => ⟨?_, ?_⟩, ?_, fun h => ?_⟩
  · simp [bolt_messages, h]
  · simp [bolt_messages, h]
  · simp [bolt_messages, h, List.getLast?_concat]
  · intro hmem
    by_contra hns
    simp [bolt_messages, hns] at hmem
    rcases hmem with h | h | h | h <;> split_ifs at h <;> exact absurd h (by decide)
  · simp [bolt_messages, h]

/-- C3: the provider is queried again, exactly once and with hyphens
replaced by spaces, precisely when the first request returns a response
with HTTP status 404 and the city contains a hyphen; a transport-level
failure of the first request yields the network error with no retry; in
every case at most two queries are issued. -/
theorem retry_once_iff_404_hyphen (provider : String → FetchOutcome) (city : String) :
    (∀ r, provider city = .ok r → r.status_code = 404 → containsHyphen city = true →
      get_weather_queries provider city = [city, replaceHyphen city]) ∧
    (∀ r, provider city = .ok r → ¬(r.status_code = 404 ∧ containsHyphen city = true) →
      get_weather_queries provider city = [city]) ∧
    (provider city = .requestError →
      get_weather_queries provider city = [city] ∧
      get_weather provider city = (none, some msg_network_error)) ∧
    (get_weather_queries provider city).length ≤ 2 := by
  refine ⟨?_, ?_, ?_, ?_⟩
  · intro r h1 h404 hhyp
    cases h2 : provider (replaceHyphen city) with
    | requestError =>
        simp [get_weather_queries,
          get_weather_run_retry_requestError provider city r h1 ⟨h404, hhyp⟩ h2]
    | ok r2 =>
        simp [get_weather_queries,
          get_weather_run_retry_ok provider city r r2 h1 ⟨h404, hhyp⟩ h2]
  · intro r h1 hc
    simp [get_weather_queries, get_weather_run_no_retry provider city r h1 hc]
  · intro h
    simp [get_weather_queries, get_weather, get_weather_run_requestError provider city h]
  · cases h1 : provider city with
    | requestError => simp [get_weather_queries, get_weather_run_requestError provider city h1]
    | ok r =>
        by_cases hc : r.status_code = 404 ∧ containsHyphen city = true
        · cases h2 : provider (replaceHyphen city) with
          | requestError =>
              simp [get_weather_queries,
                get_weather_run_retry_requestError provider city r h1 hc h2]
          | ok r2 =>
              simp [get_weather_queries,
                get_weather_run_retry_ok provider city r r2 h1 hc h2]
        · simp [get_weather_queries, get_weather_run_no_retry provider city r h1 hc]

/-- C4: classification of failures by the outcome of the last issued
query — a transport failure gives the network message; a final 404 the
not-found message; any other 400–599 status the provider-error message;
a non-failure status with unparseable body, or with a required field
missing, the unexpected-error message. -/
theorem error_taxonomy (provider : String → FetchOutcome) (city : String) (q : String)
    (hq : (get_weather_queries provider city).getLast? = some q) :
    (provider q = .requestError →
      get_weather provider city = (none, some msg_network_error)) ∧
    (∀ r, provider q = .ok r →
      (r.status_code = 404 → get_weather provider city = (none, some msg_not_found)) ∧
      (400 ≤ r.status_code → r.status_code < 600 → r.status_code ≠ 404 →
        get_weather provider city = (none, some msg_provider_error)) ∧
      (¬(400 ≤ r.status_code ∧ r.status_code < 600) → r.body = none →
        get_weather provider city = (none, some msg_unexpected_error)) ∧
      (∀ d, ¬(400 ≤ r.status_code ∧ r.status_code < 600) → r.body = some d →
        (d.name = none ∨ d.main_temp = none ∨ d.weather_description = none ∨
         d.clouds_all = none ∨ d.wind_speed = none) →
        get_weather provider city = (none, some msg_unexpected_error))) := by
  cases h1 : provider city with
  | requestError =>
      have hrun := get_weather_run_requestError provider city h1
      have hqc : city = q := by
        simpa [get_weather_queries, hrun] using hq
      subst hqc
      refine ⟨fun _ => by simp [get_weather, hrun], fun r hr => ?_⟩
      rw [h1] at hr
      exact absurd hr (by simp)
  | ok r1 =>
      by_cases hc : r1.status_code = 404 ∧ containsHyphen city = true
      · cases h2 : provider (replaceHyphen city) with
        | requestError =>
            have hrun := get_weather_run_retry_requestError provider city r1 h1 hc h2
            have hqc : replaceHyphen city = q := by
              simpa [get_weather_queries, hrun] using hq
            subst hqc
            refine ⟨fun _ => by simp [get_weather, hrun], fun r hr => ?_⟩
            rw [h2] at hr
            exact absurd hr (by simp)
        | ok r2 =>
            have hrun := get_weather_run_retry_ok provider city r1 r2 h1 hc h2
            have hqc : replaceHyphen city = q := by
              simpa [get_weather_queries, hrun] using hq
            subst hqc
            have hgw : get_weather provider city = handle_response r2 := by
              simp [get_weather, hrun]
            refine ⟨fun hre => absurd (h2 ▸ hre) (by simp), fun r hr => ?_⟩
            rw [h2] at hr
            obtain rfl : r2 = r := by simpa using hr
            refine ⟨fun h404 => ?_, fun h4 h6 hne => ?_, fun h hb => ?_, fun d h hb hm => ?_⟩
            · rw [hgw, handle_response_404 r2 h404]
            · rw [hgw, handle_response_failure_status r2 h4 h6 hne]
            · rw [hgw, handle_response_no_body r2 h hb]
            · rw [hgw, handle_response_missing_field r2 d h hb hm]
      · have hrun := get_weather_run_no_retry provider city r1 h1 hc
        have hqc : city = q := by
          simpa [get_weather_queries, hrun] using hq
        subst hqc
        have hgw : get_weather provider city = handle_response r1 := by
          simp [get_weather, hrun]
        refine ⟨fun hre => absurd (h1 ▸ hre) (by simp), fun r hr => ?_⟩
        rw [h1] at hr
        obtain rfl : r1 = r := by simpa using hr
        refine ⟨fun h404 => ?_, fun h4 h6 hne => ?_, fun h hb => ?_, fun d h hb hm => ?_⟩
        · rw [hgw, handle_response_404 r1 h404]
        · rw [hgw, handle_response_failure_status r1 h4 h6 hne]
        · rw [hgw, handle_response_no_body r1 h hb]
        · rw [hgw, handle_response_missing_field r1 d h hb hm]

/-- C5: on a successful response, the reading carries the provider's
values with rain and snow defaulting to 0 and visibility to 10000 when
absent, while a missing required field yields the unexpected-error
variant and never a soft default. -/
theorem success_defaults_and_required (provider : String → FetchOutcome) (city : String)
    (r : HttpResponse) (d : ProviderData)
    (h1 : provider city = .ok r)
    (hnr : ¬(r.status_code = 404 ∧ containsHyphen city = true))
    (hok : ¬(400 ≤ r.status_code ∧ r.status_code < 600))
    (hb : r.body = some d) :
    (∀ nm t ds cl ws, d.name = some nm → d.main_temp = some t →
      d.weather_description = some ds → d.clouds_all = some cl → d.wind_speed = some ws →
      ∃ w, get_weather provider city = (some w, none) ∧ w.city = nm ∧ w.temp = t ∧
        w.description = ds ∧ w.clouds = cl ∧ w.wind_speed = ws ∧
        (d.rain_1h = none → w.rain = 0) ∧ (∀ v, d.rain_1h = some v → w.rain = v) ∧
        (d.snow_1h = none → w.snow = 0) ∧ (∀ v, d.snow_1h = some v → w.snow = v) ∧
        (d.visibility = none → w.visibility = 10000) ∧
        (∀ v, d.visibility = some v → w.visibility = v)) ∧
    ((d.name = none ∨ d.main_temp = none ∨ d.weather_description = none ∨
      d.clouds_all = none ∨ d.wind_speed = none) →
      get_weather provider city = (none, some msg_unexpected_error)) := by
  have hgw : get_weather provider city = handle_response r := by
    simp [get_weather, get_weather_run_no_retry provider city r h1 hnr]
  constructor
  · intro nm t ds cl ws hnm hmt hwd hca hws
    refine ⟨_, by
        rw [hgw, handle_response_success r d nm t ds cl ws hok hb hnm hmt hwd hca hws],
      rfl, rfl, rfl, rfl, rfl, ?_, ?_, ?_, ?_, ?_, ?_⟩
    · intro hrn; simp [hrn]
    · intro v hv; simp [hv]
    · intro hsn; simp [hsn]
    · intro v hv; simp [hv]
    · intro hvi; simp [hvi]
    · intro v hv; simp [hv]
  · intro hm
    rw [hgw, handle_response_missing_field r d hok hb hm]

/-- C6: an inline query whose trimmed text is empty produces no answer,
zero results, and issues no query to the weather provider. -/
theorem inline_empty_zero_results (provider : String → FetchOutcome) (raw : String)
    (h : pyStrip raw = "") :
    inline_query provider raw = (InlineOutcome.noAnswer, []) := by
  simp [inline_query, h]

/-- C7: a non-empty inline query is answered with exactly one result
and cache duration 300; on error the single result carries the error
text in both title and message body; on success it is keyed by the city
name, titled with the bolt emblem and city, described with temperature
and description, and its body is the compact bolt text under a header
naming the city. -/
theorem inline_single_result (provider : String → FetchOutcome) (raw : String)
    (h : pyStrip raw ≠ "") :
    (∃ results, inline_query provider raw =
      (InlineOutcome.answered results 300, get_weather_queries provider (pyStrip raw)) ∧
      results.length = 1) ∧
    (∀ e, get_weather provider (pyStrip raw) = (none, some e) →
      (inline_query provider raw).1 = InlineOutcome.answered
        [{ id := "error", title := "❌ " ++ e, description := none,
           message_text := "❌ " ++ e }] 300) ∧
    (∀ w, get_weather provider (pyStrip raw) = (some w, none) →
      (inline_query provider raw).1 = InlineOutcome.answered
        [{ id := w.city, title := "🔩 " ++ w.city,
           description := some (fmt1 w.temp ++ "°C, " ++ w.description),
           message_text := "🔩 Метеоболт: " ++ w.city ++ "\n\n" ++
             generate_bolt_message w }] 300) := by
  refine ⟨?_, ?_, ?_⟩
  · rcases get_weather_shape provider (pyStrip raw) with ⟨w, hw⟩ | ⟨m, hm, -⟩
    · simp only [get_weather] at hw
      have heq : inline_query provider raw = (InlineOutcome.answered
          [{ id := w.city, title := "🔩 " ++ w.city,
             description := some (fmt1 w.temp ++ "°C, " ++ w.description),
             message_text := "🔩 Метеоболт: " ++ w.city ++ "\n\n" ++
               generate_bolt_message w }] 300, get_weather_queries provider (pyStrip raw)) := by
        simp [inline_query, h, hw, get_weather_queries]
      exact ⟨_, heq, rfl⟩
    · simp only [get_weather] at hm
      have heq : inline_query provider raw = (InlineOutcome.answered
          [{ id := "error", title := "❌ " ++ m, description := none,
             message_text := "❌ " ++ m }] 300, get_weather_queries provider (pyStrip raw)) := by
        obtain ⟨wx, hw2⟩ : ∃ x, (get_weather_run provider (pyStrip raw)).1 = (x, some m) :=
          ⟨none, hm⟩
        simp [inline_query, h, hw2, get_weather_queries]
      exact ⟨_, heq, rfl⟩
  · intro e he
    simp only [get_weather] at he
    simp [inline_query, h, he]
  · intro w hw
    simp only [get_weather] at hw
    simp [inline_query, h, hw]

/-- C8: the detailed message is the newline-joined sequence of the
city-name header, the one-decimal temperature line with its unit, the
description line, a blank line, the bolt-status header, and then the
bolt status lines; and the formatted temperature ends in a decimal
point followed by exactly one digit. -/
theorem detailed_message_layout (w : WeatherInfo) :
    generate_detailed_message w =
      joinNL (["🌡 Погода в городе " ++ w.city,
               "Температура: " ++ fmt1 w.temp ++ "°C",
               "Описание: " ++ w.description,
               "",
               "⚙️ Состояние метеоболта:"] ++ bolt_messages w) ∧
    ∃ ip dg, fmt1 w.temp = ip ++ "." ++ dg ∧ dg.length = 1 ∧
      dg.data.all Char.isDigit = true := by
  constructor
  · apply String.ext
    have hjoin : joinNL (["🌡 Погода в городе " ++ w.city,
        "Температура: " ++ fmt1 w.temp ++ "°C",
        "Описание: " ++ w.description,
        "",
        "⚙️ Состояние метеоболта:"] ++ bolt_messages w) =
        ("🌡 Погода в городе " ++ w.city) ++ "\n" ++
        (("Температура: " ++ fmt1 w.temp ++ "°C") ++ "\n" ++
        (("Описание: " ++ w.description) ++ "\n" ++
        ("" ++ "\n" ++
        ("⚙️ Состояние метеоболта:" ++ "\n" ++ joinNL (bolt_messages w))))) := rfl
    rw [hjoin]
    have e1 : ("°C\n" : String).data = ("°C" : String).data ++ ("\n" : String).data := rfl
    have e2 : ("\n\n" : String).data =
        ("\n" : String).data ++ (("" : String).data ++ ("\n" : String).data) := rfl
    have e3 : ("⚙️ Состояние метеоболта:\n" : String).data =
        ("⚙️ Состояние метеоболта:" : String).data ++ ("\n" : String).data := rfl
    simp only [generate_detailed_message, generate_bolt_message, String.data_append,
      List.append_assoc, List.cons_append, List.nil_append, e1, e2, e3]
  · refine ⟨(if w.temp.num < 0 then "-" else "") ++
      toString ((scaledRoundHalfEven w.temp).natAbs / 10),
      toString ((scaledRoundHalfEven w.temp).natAbs % 10), rfl, ?_, ?_⟩
    · exact (toString_digit _ (Nat.mod_lt _ (by norm_num))).1
    · exact (toString_digit _ (Nat.mod_lt _ (by norm_num))).2

/-- C9: the webhook endpoint returns 200 exactly when decode and
handoff succeed, 500 exactly when decode fails or the handoff raises
before any handler runs, and the HTTP status never depends on whether
the handler itself raises after handoff. -/
theorem webhook_status_policy (s : WebhookScenario) :
    (s.decode_ok = true → s.handoff_ok = true → telegram_webhook_handler s = 200) ∧
    (telegram_webhook_handler s = 500 ↔ (s.decode_ok = false ∨ s.handoff_ok = false)) ∧
    (∀ b, telegram_webhook_handler
      { decode_ok := s.decode_ok, handoff_ok := s.handoff_ok, handler_raises := b } =
      telegram_webhook_handler s) := by
  rcases s with ⟨d, ho, hr⟩
  cases d <;> cases ho <;> simp [telegram_webhook_handler, process_update_raises]

/-- C10: for every city and every provider behavior, `get_weather`
returns exactly one populated component — either a reading with no
error, or no reading with one of the four fixed error strings. -/
theorem weather_result_exclusive (provider : String → FetchOutcome) (city : String) :
    (∃ w, get_weather provider city = (some w, none)) ∨
    (∃ m, get_weather provider city = (none, some m) ∧
      (m = msg_not_found ∨ m = msg_provider_error ∨
       m = msg_network_error ∨ m = msg_unexpected_error)) := by
  rcases get_weather_shape provider city with h | ⟨m, hm, hmem⟩
  · exact Or.inl h
  · exact Or.inr ⟨m, hm, by simpa [weather_error_messages] using hmem⟩

/-- Witness for C4: a provider that answers HTTP 500 to every query
yields the provider-error message. -/
theorem error_taxonomy_witness :
    get_weather provider500 "Paris" = (none, some msg_provider_error) := by
  have h := (error_taxonomy provider500 "Paris" "Paris" (by decide)).2 resp500 rfl
  exact h.2.1 (by decide) (by decide) (by decide)

/-- Witness for C5: a successful response with the optional fields
absent yields a reading with the documented defaults. -/
theorem success_defaults_witness :
    ∃ w, get_weather providerOslo "Oslo" = (some w, none) ∧
      w.rain = 0 ∧ w.snow = 0 ∧ w.visibility = 10000 := by
  obtain ⟨w, hw, -, -, -, -, -, hr0, -, hs0, -, hv0, -⟩ :=
    (success_defaults_and_required providerOslo "Oslo" respOslo dOslo (by decide) (by decide)
      (by decide) rfl).1 "Oslo" 7 "clear" 10 3 rfl rfl rfl rfl rfl
  exact ⟨w, hw, hr0 rfl, hs0 rfl, hv0 rfl⟩

/-- Witness for C6: a whitespace-only inline query yields no answer and
no provider query. -/
theorem inline_empty_witness :
    inline_query provider500 "   " = (InlineOutcome.noAnswer, []) :=
  inline_empty_zero_results provider500 "   " (by decide)

/-- Witness for C7: a non-empty inline query yields exactly one result
with cache duration 300. -/
theorem inline_single_result_witness :
    ∃ results, inline_query provider500 "Paris" =
      (InlineOutcome.answered results 300, get_weather_queries provider500 (pyStrip "Paris")) ∧
      results.length = 1 :=
  (inline_single_result provider500 "Paris" (by decide)).1
